import Mathlib

/-!
Verification development for the ble-orchestrator daemon.

This file gives a shallow embedding of the core data model and operations of
the orchestrator (src/ble_orchestrator/orchestrator/): the request types and
status enumeration (types.py), the priority request queue and its worker loop
(queue_manager.py), the scan cache (scanner.py), the request handler's scan
and read paths (handler.py), the watchdog's issue routing (watchdog.py), the
IPC command dispatch (ipc_server.py), and the service assembly (service.py).
Times are modelled as rationals, Python dicts keyed by strings as association
lists, and Python object identity (for module-level locks) as an allocation
counter.  Theorems about these definitions settle the specification claims.
-/

/-- Request priorities, types.py `RequestPriority`: HIGH=0, NORMAL=1, LOW=2. -/
inductive RequestPriority where
  | HIGH
  | NORMAL
  | LOW
deriving DecidableEq, Repr

/-- Numeric value of a priority, `request.priority.value` in queue_manager.py. -/
def RequestPriority.val : RequestPriority → Nat
  | .HIGH => 0
  | .NORMAL => 1
  | .LOW => 2

/-- Request statuses, types.py `RequestStatus`.  The enumeration has exactly
these five members; in particular there is no SKIPPED member. -/
inductive RequestStatus where
  | PENDING
  | PROCESSING
  | COMPLETED
  | FAILED
  | TIMEOUT
deriving DecidableEq, Repr

/-- A status is terminal when the worker removes the request from active
tracking after reaching it. -/
def RequestStatus.isTerminal : RequestStatus → Bool
  | .COMPLETED => true
  | .FAILED => true
  | .TIMEOUT => true
  | _ => false

/-- config.py `BLE_RETRY_COUNT`. -/
def BLE_RETRY_COUNT : Nat := 2

/-- config.py `REQUEST_MAX_AGE_SEC`. -/
def REQUEST_MAX_AGE_SEC : ℚ := 30

/-- config.py `SKIP_OLD_REQUESTS`. -/
def SKIP_OLD_REQUESTS : Bool := true

/-- config.py `SCAN_CACHE_TTL_SEC`. -/
def SCAN_CACHE_TTL_SEC : ℚ := 300

/-- config.py `SCAN_COMMAND_TIMEOUT_SEC`. -/
def SCAN_COMMAND_TIMEOUT_SEC : ℚ := 5

/-!
Main priority queue (queue_manager.py).

`enqueue_request` puts the tuple `(priority_value, request_id, request)` into
an `asyncio.PriorityQueue` (line 142).  That queue is a binary heap over the
tuples compared lexicographically, so each `get` in the worker loop removes a
minimal remaining entry: first by priority value, ties broken by the
`request_id` string (Python compares `str` by code points, as Lean's `String`
order does).  Request ids are unique, so the comparison never reaches the
third component.  We model a queue entry by the pair that determines its heap
position, and the dispatch order of a batch of queued entries by repeatedly
removing a minimal entry.
-/

/-- Heap entry of the main queue: the components of the tuple put into the
`asyncio.PriorityQueue` that take part in the comparison. -/
structure QEntry where
  priorityValue : Nat
  requestId : String
deriving DecidableEq, Repr

/-- Strict lexicographic comparison of heap entries, following Python tuple
comparison of `(priority_value, request_id)`. -/
def keyLtBool (a b : QEntry) : Bool :=
  a.priorityValue < b.priorityValue ||
    (a.priorityValue == b.priorityValue && decide (a.requestId < b.requestId))

/-- Non-strict lexicographic order on heap entries (Prop form). -/
def entryLe (a b : QEntry) : Prop :=
  a.priorityValue < b.priorityValue ∨
    (a.priorityValue = b.priorityValue ∧ a.requestId ≤ b.requestId)

/-- Remove a minimal entry from a nonempty collection (`e` together with `l`):
the heap's `get` returns a minimal remaining element.  Returns the minimum and
the remaining entries. -/
def popMin (e : QEntry) : List QEntry → QEntry × List QEntry
  | [] => (e, [])
  | f :: rest =>
    if keyLtBool f e then
      let p := popMin f rest
      (p.1, e :: p.2)
    else
      let p := popMin e rest
      (p.1, f :: p.2)

/-- Drain at most `fuel` entries from the queue, each time removing a minimal
remaining entry.  `popMin` preserves the number of remaining entries, so with
`fuel` equal to the number of entries this drains them all. -/
def drainHeapAux (fuel : Nat) (l : List QEntry) : List QEntry :=
  match fuel, l with
  | 0, _ => []
  | _ + 1, [] => []
  | n + 1, e :: rest =>
    let p := popMin e rest
    p.1 :: drainHeapAux n p.2

/-- Dispatch order of a batch of queued entries: the sequence of heap
removals when all entries are enqueued before the worker drains the queue. -/
def drainHeap (l : List QEntry) : List QEntry :=
  drainHeapAux l.length l

/-!
Scan cache (scanner.py `ScanCache`).

`add_result` builds a `ScanResult` from the advertisement callback and appends
it to a per-address `deque(maxlen=10)`; `get_latest_result` reads the last
element of that deque and applies the TTL check.  The `advertisement_data`
dict built by `add_result` always has exactly the keys `local_name`,
`manufacturer_data`, `service_data` and `service_uuids`, so it is modelled as
a structure; byte values are modelled as lists of naturals (the source stores
`list(v)`), and dict keys as association lists.  The periodic
`_cleanup_expired_entries` purge only removes addresses whose latest record
is already past the TTL, which `get_latest_result` would map to `none`
anyway, so the purge is not modelled.
-/

/-- The `advertisement_data` dict built by `ScanCache.add_result`. -/
structure AdvData where
  localName : Option String
  manufacturerData : List (String × List Nat)
  serviceData : List (String × List Nat)
  serviceUuids : List String
deriving DecidableEq, Repr

/-- types.py `ScanResult` as populated by `ScanCache.add_result`. -/
structure ScanResult where
  address : String
  name : Option String
  rssi : Option Int
  advertisementData : AdvData
  timestamp : ℚ
deriving DecidableEq, Repr

/-- The scan cache: the TTL and the per-address deques (oldest first). -/
structure ScanCache where
  ttlSeconds : ℚ
  entries : List (String × List ScanResult)
deriving DecidableEq, Repr

/-- Look an address up in the cache mapping (no `defaultdict` insertion:
`get_latest_result` only tests membership). -/
def cacheLookup (c : ScanCache) (addr : String) : Option (List ScanResult) :=
  (c.entries.find? (fun p => p.1 == addr)).map (fun p => p.2)

/-- Append to a `deque(maxlen=10)`: the new element goes to the right end and
the leftmost element is dropped once the deque already holds 10. -/
def dequeAppend10 (l : List ScanResult) (r : ScanResult) : List ScanResult :=
  let grown := l ++ [r]
  if grown.length > 10 then grown.drop (grown.length - 10) else grown

/-- `ScanCache.add_result`: append the new record to the deque of its
address, creating the deque when the address is new. -/
def addResult (c : ScanCache) (r : ScanResult) : ScanCache :=
  match cacheLookup c r.address with
  | some _ =>
    { c with entries := c.entries.map (fun p =>
        if p.1 == r.address then (p.1, dequeAppend10 p.2 r) else p) }
  | none =>
    { c with entries := (r.address, dequeAppend10 [] r) :: c.entries }

/-- `ScanCache.get_latest_result`: return the newest record for the address,
or nothing when the address is unknown, its deque is empty, or the newest
record's age exceeds the TTL. -/
def getLatestResult (now : ℚ) (c : ScanCache) (addr : String) : Option ScanResult :=
  match cacheLookup c addr with
  | none => none
  | some results =>
    match results.getLast? with
    | none => none
    | some latest =>
      if now - latest.timestamp > c.ttlSeconds then none else some latest

/-!
Scan-lookup handling (handler.py `_handle_scan_request`).

The handler fetches the cached record through the configured
`get_scan_data_func`; service.py wires `_get_ble_device`, which returns
`scanner.cache.get_latest_result(mac)`, so the record given to the handler is
a types.py `ScanResult`.  Attribute probing on that object is fixed by the
dataclass definition: `name`, `rssi`, `address` and `advertisement_data`
exist, while `metadata` and `advertisement` do not, so `hasattr(scan_data,
"metadata")` is False for every cached record and the `metadata` branches
never fire.
-/

/-- Result of `hasattr(scan_data, attr)` on a cached types.py `ScanResult`:
the dataclass declares exactly the fields `address`, `name`, `rssi`,
`advertisement_data` and `timestamp`, so probing any other attribute (in
particular `metadata` and `advertisement`) is False. -/
def pyHasAttr (_ : ScanResult) (attr : String) : Bool :=
  attr == "address" || attr == "name" || attr == "rssi" ||
    attr == "advertisement_data" || attr == "timestamp"

/-- Value stored under one service uuid of the response's `service_data`:
either the default empty dict from the `metadata` miss, or observed bytes. -/
inductive ServiceDataValue where
  | emptyObj
  | raw (bytes : List Nat)
deriving DecidableEq, Repr

/-- The `scan_result` dict built by `_handle_scan_request` on a cache hit.
Optional fields are `none` when the corresponding key is never set. -/
structure ScanResultPayload where
  name : Option String
  rssi : Option Int
  address : String
  advertisementData : AdvData
  manufacturerData : Option (List (String × List Nat))
  services : Option (List String)
  serviceData : Option (List (String × ServiceDataValue))
deriving DecidableEq, Repr

/-- The handler's `request.response_data` after a scan lookup. -/
inductive ScanResponseData where
  | notFound (errorMsg : String) (address : String)
  | payload (p : ScanResultPayload)
deriving DecidableEq, Repr

/-- The error message placed in the miss response. -/
def scanNotFoundMessage (mac : String) : String :=
  "Device " ++ mac ++ " not found or scan data expired"

/-- `_handle_scan_request`: on a miss, respond with the error object and
still complete; on a hit, serialize the record.  The hit path follows the
source's attribute probing: `name`, `rssi`, `address` and
`advertisement_data` exist on every cached record; `manufacturer_data` is
always a key of `advertisement_data` as built by `add_result`, so it is also
attached at top level; `metadata` never exists, so `services` stays unset;
with a `service_uuid` filter, `service_data` starts as the empty dict and is
only overwritten from `scan_data.metadata`, which does not exist, so the
empty dict is what gets attached under the requested uuid.  Each branch
guarded by a dead `pyHasAttr` test carries a placeholder value that the
guard makes unreachable. -/
def handleScanRequest (lookup : String → Option ScanResult) (mac : String)
    (serviceUuidFilter : Option String) : RequestStatus × ScanResponseData :=
  match lookup mac with
  | none => (.COMPLETED, .notFound (scanNotFoundMessage mac) mac)
  | some sd =>
    let payload : ScanResultPayload :=
      { name := if pyHasAttr sd "name" then sd.name else none
        rssi := if pyHasAttr sd "rssi" then sd.rssi else none
        address := sd.address
        advertisementData := sd.advertisementData
        manufacturerData := some sd.advertisementData.manufacturerData
        services := if pyHasAttr sd "metadata" then some [] else none
        serviceData :=
          match serviceUuidFilter with
          | none => none
          | some u =>
            let value :=
              if pyHasAttr sd "metadata" then
                ServiceDataValue.raw []
              else
                ServiceDataValue.emptyObj
            some [(u, value)] }
    (.COMPLETED, .payload payload)

/-- The `service_data` field of a scan response, when one was produced. -/
def responseServiceData : ScanResponseData → Option (List (String × ServiceDataValue))
  | .payload p => p.serviceData
  | .notFound _ _ => none

/-!
Main worker loop step (queue_manager.py `_worker_loop`, lines 264-346), and
completion signalling (types.py `mark_as_done`, handler.py `handle_request`).

After a successful `get`, the loop body either skips the request for age
(status FAILED, error message recorded, `skipped_requests` bumped, the
request dropped from active tracking, the dispatcher never invoked), or sets
PROCESSING and runs `worker_func(request)` under `asyncio.wait_for` with the
request's own `timeout_sec`.  `worker_func` is `BLERequestHandler.
handle_request`, which calls `request.mark_as_done()` exactly once when the
inner handling returns and exactly once in its `except Exception` clause when
it raises.  When `wait_for` hits the deadline it cancels the inner task:
`asyncio.CancelledError` derives from `BaseException`, so the handler's
`except Exception` clause does not run and `mark_as_done` is never called on
that path; likewise the age-skip path never calls it.  The step is modelled
as a function of the configuration, the clock, the request's creation time
and the dispatcher's outcome.
-/

/-- Outcome of running `worker_func(request)` under the per-request
deadline. -/
inductive InnerOutcome where
  | ok
  | raised (msg : String)
  | deadline
deriving DecidableEq, Repr

/-- Number of `mark_as_done` calls performed by `handle_request` for a given
outcome: one on return, one in the `except Exception` clause, none when the
deadline cancellation tears the coroutine down. -/
def handleRequestDoneSignals : InnerOutcome → Nat
  | .ok => 1
  | .raised _ => 1
  | .deadline => 0

/-- Queue configuration relevant to the age check
(`_skip_old_requests`, `_request_max_age_sec`). -/
structure QueueConfig where
  skipOldRequests : Bool
  requestMaxAgeSec : ℚ
deriving DecidableEq, Repr

/-- `RequestQueueManager._is_request_too_old`. -/
def isRequestTooOld (cfg : QueueConfig) (now createdAt : ℚ) : Bool :=
  cfg.skipOldRequests && decide (now - createdAt > cfg.requestMaxAgeSec)

/-- The error message recorded on the age-skip path (the source interpolates
the configured maximum age into the text). -/
def ageSkipMessage (maxAge : ℚ) : String :=
  "Request skipped due to age (>" ++ toString maxAge ++ "s)"

/-- Observable effects of one worker-loop step on the dequeued request and
the statistics counters. -/
structure WorkerOutcome where
  status : RequestStatus
  errorMessage : Option String
  dispatched : Bool
  doneSignals : Nat
  skippedDelta : Nat
  completedDelta : Nat
  failedDelta : Nat
  timeoutDelta : Nat
  removedFromActive : Bool
deriving DecidableEq, Repr

/-- One `_worker_loop` iteration after a successful `get`, as a function of
the dispatcher outcome. -/
def workerStep (cfg : QueueConfig) (now createdAt : ℚ)
    (outcome : InnerOutcome) : WorkerOutcome :=
  if isRequestTooOld cfg now createdAt then
    { status := .FAILED
      errorMessage := some (ageSkipMessage cfg.requestMaxAgeSec)
      dispatched := false
      doneSignals := 0
      skippedDelta := 1
      completedDelta := 0
      failedDelta := 0
      timeoutDelta := 0
      removedFromActive := true }
  else
    match outcome with
    | .ok =>
      { status := .COMPLETED
        errorMessage := none
        dispatched := true
        doneSignals := handleRequestDoneSignals .ok
        skippedDelta := 0
        completedDelta := 1
        failedDelta := 0
        timeoutDelta := 0
        removedFromActive := true }
    | .raised msg =>
      { status := .FAILED
        errorMessage := some msg
        dispatched := true
        doneSignals := handleRequestDoneSignals (.raised msg)
        skippedDelta := 0
        completedDelta := 0
        failedDelta := 1
        timeoutDelta := 0
        removedFromActive := true }
    | .deadline =>
      { status := .TIMEOUT
        errorMessage := some "Request timed out"
        dispatched := true
        doneSignals := handleRequestDoneSignals .deadline
        skippedDelta := 0
        completedDelta := 0
        failedDelta := 0
        timeoutDelta := 1
        removedFromActive := true }

/-!
Read handling with retry (handler.py `_handle_read_request`, lines 195-270,
wrapped by `handle_request`, lines 50-87) and the watchdog's issue routing
(watchdog.py `notify_component_issue`, lines 52-75).

The read path resolves the device, optionally performs the scanner-stop
handshake (only when exclusive control is enabled AND a scanner instance was
passed to the handler's constructor), and then tries up to `BLE_RETRY_COUNT`
connection attempts.  When every attempt fails it invokes
`self._notify_watchdog_func()` — a zero-argument callback — if and only if
one was configured, and raises.  The driver is modelled as an oracle mapping
the attempt index to `some bytes` (success) or `none` (BleakError or
timeout).
-/

/-- Index and value of the first successful driver attempt among
`fuel` attempts starting at index `i`, if any. -/
def firstSuccessFrom (driver : Nat → Option (List Nat)) :
    Nat → Nat → Option (Nat × List Nat)
  | 0, _ => none
  | fuel + 1, i =>
    match driver i with
    | some v => some (i, v)
    | none => firstSuccessFrom driver fuel (i + 1)

/-- The message of the exception raised after the final failed attempt (the
source also appends the text of the last driver error). -/
def readFailMessage (n : Nat) : String :=
  "Failed to read after " ++ toString n ++ " attempts"

/-- Observable effects of the `_handle_read_request` body. -/
structure ReadRunResult where
  status : RequestStatus
  responseData : Option (List Nat)
  attemptsMade : Nat
  raisedMsg : Option String
  watchdogCallbackCalls : Nat
  handshakeEngaged : Bool
deriving DecidableEq, Repr

/-- `_handle_read_request` on a found device: engage the handshake when
configured, then retry the driver until the first success or exhaustion. -/
def handleReadRequestRun (retryCount : Nat) (driver : Nat → Option (List Nat))
    (notifyConfigured scannerPresent exclusiveEnabled : Bool) : ReadRunResult :=
  let handshake := exclusiveEnabled && scannerPresent
  match firstSuccessFrom driver retryCount 0 with
  | some (i, v) =>
    { status := .COMPLETED
      responseData := some v
      attemptsMade := i + 1
      raisedMsg := none
      watchdogCallbackCalls := 0
      handshakeEngaged := handshake }
  | none =>
    { status := .PENDING
      responseData := none
      attemptsMade := retryCount
      raisedMsg := some (readFailMessage retryCount)
      watchdogCallbackCalls := if notifyConfigured then 1 else 0
      handshakeEngaged := handshake }

/-- Observable effects of `handle_request` dispatching a read. -/
structure DispatchResult where
  status : RequestStatus
  errorMessage : Option String
  consecutiveFailures : Nat
  doneSignals : Nat
  raised : Bool
  attemptsMade : Nat
  watchdogCallbackCalls : Nat
  componentIssuesReported : List String
deriving DecidableEq, Repr

/-- Component-issue names reaching `BLEWatchdog.notify_component_issue`
during a read: the handler's callback takes no arguments, so any issue name
comes from the wired callback itself; `issuesPerCall` lists what one call of
the wired callback reports. -/
def componentIssuesFromCalls (calls : Nat) (issuesPerCall : List String) : List String :=
  (List.replicate calls issuesPerCall).flatten

/-- `handle_request` around `_handle_read_request`: reset the failure counter
and mark done on success; on the raised exception, bump the counter, set
FAILED with the error message, mark done, and re-raise. -/
def dispatchReadRequest (prevFailures retryCount : Nat)
    (driver : Nat → Option (List Nat))
    (notifyConfigured scannerPresent exclusiveEnabled : Bool)
    (issuesPerCall : List String) : DispatchResult :=
  let run := handleReadRequestRun retryCount driver notifyConfigured
    scannerPresent exclusiveEnabled
  match run.raisedMsg with
  | none =>
    { status := run.status
      errorMessage := none
      consecutiveFailures := 0
      doneSignals := 1
      raised := false
      attemptsMade := run.attemptsMade
      watchdogCallbackCalls := run.watchdogCallbackCalls
      componentIssuesReported :=
        componentIssuesFromCalls run.watchdogCallbackCalls issuesPerCall }
  | some m =>
    { status := .FAILED
      errorMessage := some m
      consecutiveFailures := prevFailures + 1
      doneSignals := 1
      raised := true
      attemptsMade := run.attemptsMade
      watchdogCallbackCalls := run.watchdogCallbackCalls
      componentIssuesReported :=
        componentIssuesFromCalls run.watchdogCallbackCalls issuesPerCall }

/-- service.py lines 45-49: `BLERequestHandler` is constructed with only
`get_device_func` and `get_scan_data_func`; the `scanner` parameter keeps its
default `None`. -/
def serviceHandlerScannerArg : Option Unit := none

/-- service.py lines 45-49: the `notify_watchdog_func` parameter also keeps
its default `None`, so the handler has no watchdog callback. -/
def serviceHandlerNotifyWatchdogConfigured : Bool := false

/-- handler.py line 48: `_exclusive_control_enabled` starts `True`. -/
def handlerExclusiveControlDefault : Bool := true

/-- A read dispatched through the handler exactly as service.py assembles
it: default retry count, no watchdog callback, no scanner. -/
def serviceReadDispatch (driver : Nat → Option (List Nat))
    (prevFailures : Nat) : DispatchResult :=
  dispatchReadRequest prevFailures BLE_RETRY_COUNT driver
    serviceHandlerNotifyWatchdogConfigured serviceHandlerScannerArg.isSome
    handlerExclusiveControlDefault []

/-- Recovery paths of watchdog.py. -/
inductive RecoveryAction where
  | lightweightAdapterReset
  | fullRecovery
deriving DecidableEq, Repr

/-- `BLEWatchdog.notify_component_issue` routing: the component name
`bleakclient_failure` takes the lightweight adapter-reset path, every other
name the full recovery path. -/
def notifyComponentIssueRoute (componentName : String) : RecoveryAction :=
  if componentName == "bleakclient_failure" then .lightweightAdapterReset
  else .fullRecovery

/-!
IPC command dispatch (ipc_server.py `_process_command`, lines 222-480).

The dispatcher is a chain of string comparisons on the `command` field; a
command matching none of the branches falls through to the final `else` and
is answered with the unknown-command error.  The source merges
`get_scan_result` and `get_scan_data` into one branch and splits them inside;
the routing below is the equivalent flat chain.  The work done by each
matched branch is abstracted to its routing tag, since the claims settled
here concern only which branch a command reaches.
-/

/-- Branches of `_process_command`. -/
inductive IPCRoute where
  | getStatus
  | getScanResult
  | getScanData
  | readSensor
  | sendCommand
  | subscribeNotifications
  | unknown (command : String)
deriving DecidableEq, Repr

/-- The branch a command is dispatched to. -/
def processCommandRoute (command : String) : IPCRoute :=
  if command == "get_status" then .getStatus
  else if command == "get_scan_data" then .getScanData
  else if command == "get_scan_result" then .getScanResult
  else if command == "read_sensor" then .readSensor
  else if command == "send_command" then .sendCommand
  else if command == "subscribe_notifications" then .subscribeNotifications
  else .unknown command

/-- The `error` field of the response produced by a route, for routes that
unconditionally produce an error. -/
def routeErrorResponse : IPCRoute → Option String
  | .unknown c => some ("Unknown command: " ++ c)
  | _ => none

/-!
Module-level lock identity (scanner.py line 27, handler.py line 23).

Both modules evaluate `_ble_operation_lock = asyncio.Lock()` at import time.
Each evaluation of `asyncio.Lock()` constructs a fresh object, so the two
module attributes are distinct lock objects, regardless of the comment in
handler.py.  Object identity is modelled by an allocation counter.
-/

/-- Allocate a fresh object identity. -/
def allocLock (next : Nat) : Nat × Nat := (next, next + 1)

/-- Allocation performed by scanner.py line 27 at import. -/
def scannerModuleLockAlloc : Nat × Nat := allocLock 0

/-- Identity of scanner.py's `_ble_operation_lock`. -/
def scannerModuleLockId : Nat := scannerModuleLockAlloc.1

/-- Allocation performed by handler.py line 23 at import. -/
def handlerModuleLockAlloc : Nat × Nat := allocLock scannerModuleLockAlloc.2

/-- Identity of handler.py's `_ble_operation_lock`: the lock acquired around
every READ and WRITE radio operation. -/
def handlerModuleLockId : Nat := handlerModuleLockAlloc.1

/-- handler.py lines 207 and 282: the scanner-stop handshake runs only when
exclusive control is enabled AND a scanner instance is configured
(`if self._exclusive_control_enabled and self._scanner:`). -/
def handlerEngagesExclusionHandshake (exclusiveControlEnabled : Bool)
    (scanner : Option Unit) : Bool :=
  exclusiveControlEnabled && scanner.isSome

/-- service.py lines 65-68: `NotificationManager` is constructed with only
`get_device_func` and `notify_callback_func`; its `scanner` parameter keeps
its default `None`, so its connector tasks also skip the handshake. -/
def serviceNotificationManagerScannerArg : Option Unit := none

/-!
Service assembly (service.py `BLEOrchestratorService.__init__`, lines 37-78,
against ipc_server.py `IPCServer.__init__`, lines 34-56).

`__init__` constructs the handler, queue manager, watchdog, scanner and
notification manager, then calls `IPCServer(...)` with three positional
arguments and the keyword argument `queue_manager=...`.  `IPCServer.__init__`
declares exactly the parameters `handle_scan_func`, `enqueue_request_func`
and `get_status_func` (besides `self`) and no `**kwargs`, so Python raises
`TypeError: unexpected keyword argument` before `__init__` finishes.  No
component `start()` coroutine is invoked inside `__init__` at all.
-/

/-- Python call binding for keyword arguments: every keyword must name a
declared parameter and must not collide with a positionally filled one, and
the positional arguments must fit. -/
def acceptsCallKeywords (params : List String) (numPositional : Nat)
    (kwargs : List String) : Bool :=
  decide (numPositional ≤ params.length) &&
    kwargs.all (fun k => params.contains k) &&
    kwargs.all (fun k => !(params.take numPositional).contains k)

/-- The parameters of `IPCServer.__init__` besides `self`. -/
def ipcServerInitParams : List String :=
  ["handle_scan_func", "enqueue_request_func", "get_status_func"]

/-- Result of running `BLEOrchestratorService.__init__`. -/
inductive ServiceInitResult where
  | ok
  | typeErrorUnexpectedKeyword (kwarg : String)
deriving DecidableEq, Repr

/-- The `IPCServer(...)` call inside `BLEOrchestratorService.__init__`:
three positional arguments plus the keyword `queue_manager`. -/
def bleOrchestratorServiceInit : ServiceInitResult :=
  if acceptsCallKeywords ipcServerInitParams 3 ["queue_manager"] then .ok
  else .typeErrorUnexpectedKeyword "queue_manager"

/-- Component `start()` calls made inside `BLEOrchestratorService.__init__`:
none — starting is done separately by `BLEOrchestratorService.start`. -/
def componentStartCallsInServiceInit : List String := []

/-! Helper lemmas for the heap dispatch order. -/

/-- Unfold the Boolean heap comparison into its propositional meaning. -/
theorem keyLt_iff (a b : QEntry) :
    keyLtBool a b = true ↔
      (a.priorityValue < b.priorityValue ∨
        (a.priorityValue = b.priorityValue ∧ a.requestId < b.requestId)) := by
  simp [keyLtBool]

/-- The heap order is reflexive in its non-strict form. -/
theorem entryLe_refl (a : QEntry) : entryLe a a :=
  Or.inr ⟨rfl, le_refl _⟩

/-- The non-strict heap order is transitive. -/
theorem entryLe_trans {a b c : QEntry} (hab : entryLe a b) (hbc : entryLe b c) :
    entryLe a c := by
  rcases hab with h1 | ⟨e1, s1⟩
  · rcases hbc with h2 | ⟨e2, _⟩
    · exact Or.inl (h1.trans h2)
    · exact Or.inl (e2 ▸ h1)
  · rcases hbc with h2 | ⟨e2, s2⟩
    · exact Or.inl (e1 ▸ h2)
    · exact Or.inr ⟨e1.trans e2, s1.trans s2⟩

/-- A true heap comparison gives the non-strict order. -/
theorem entryLe_of_keyLt {a b : QEntry} (h : keyLtBool a b = true) : entryLe a b := by
  rcases (keyLt_iff a b).mp h with h1 | ⟨e1, s1⟩
  · exact Or.inl h1
  · exact Or.inr ⟨e1, le_of_lt s1⟩

/-- A false heap comparison gives the reverse non-strict order. -/
theorem entryLe_of_not_keyLt {a b : QEntry} (h : keyLtBool a b = false) :
    entryLe b a := by
  have h' : ¬ (a.priorityValue < b.priorityValue ∨
      (a.priorityValue = b.priorityValue ∧ a.requestId < b.requestId)) := by
    intro hx
    rw [← keyLt_iff] at hx
    exact absurd hx (by simp [h])
  push_neg at h'
  rcases Nat.lt_trichotomy b.priorityValue a.priorityValue with hlt | heq | hgt
  · exact Or.inl hlt
  · exact Or.inr ⟨heq, h'.2 heq.symm⟩
  · exact absurd hgt (not_lt.mpr h'.1)

/-- `popMin` does not change the number of remaining entries. -/
theorem popMin_length (e : QEntry) (l : List QEntry) :
    (popMin e l).2.length = l.length := by
  induction l generalizing e with
  | nil => simp [popMin]
  | cons f rest ih =>
    simp only [popMin]
    split
    · simp [ih]
    · simp [ih]

/-- `popMin` permutes the entries: the removed minimum together with the
remainder is the original collection. -/
theorem popMin_perm (e : QEntry) (l : List QEntry) :
    List.Perm ((popMin e l).1 :: (popMin e l).2) (e :: l) := by
  induction l generalizing e with
  | nil => simp [popMin]
  | cons f rest ih =>
    simp only [popMin]
    split
    · exact (List.Perm.swap e _ _).trans ((ih f).cons e)
    · exact (List.Perm.swap f _ _).trans (((ih e).cons f).trans (List.Perm.swap e f rest))

/-- The entry removed by `popMin` is minimal among all entries. -/
theorem popMin_min (e : QEntry) (l : List QEntry) :
    ∀ x ∈ e :: l, entryLe (popMin e l).1 x := by
  induction l generalizing e with
  | nil =>
    intro x hx
    simp only [List.mem_singleton] at hx
    subst hx
    simp only [popMin]
    exact entryLe_refl x
  | cons f rest ih =>
    intro x hx
    simp only [popMin]
    split
    next hlt =>
      rcases List.mem_cons.mp hx with hxe | hxr
      · subst hxe
        exact entryLe_trans (ih f f (List.mem_cons_self f rest)) (entryLe_of_keyLt hlt)
      · exact ih f x hxr
    next hge =>
      rcases List.mem_cons.mp hx with hxe | hxr
      · rw [hxe]
        exact ih e e (List.mem_cons_self e rest)
      · rcases List.mem_cons.mp hxr with hxf | hxrest
        · subst hxf
          exact entryLe_trans (ih e e (List.mem_cons_self e rest))
            (entryLe_of_not_keyLt (by simpa using hge))
        · exact ih e x (List.mem_cons_of_mem e hxrest)

/-- Draining with enough fuel yields a permutation of the queued entries. -/
theorem drainHeapAux_perm :
    ∀ (n : Nat) (l : List QEntry), l.length ≤ n →
      List.Perm (drainHeapAux n l) l := by
  intro n
  induction n with
  | zero =>
    intro l h
    have : l = [] := List.eq_nil_of_length_eq_zero (Nat.le_zero.mp h)
    subst this
    simp [drainHeapAux]
  | succ n ih =>
    intro l h
    match l with
    | [] => simp [drainHeapAux]
    | e :: rest =>
      simp only [drainHeapAux]
      have hlen : (popMin e rest).2.length ≤ n := by
        rw [popMin_length]
        simpa using h
      exact ((ih (popMin e rest).2 hlen).cons _).trans (popMin_perm e rest)

/-- Draining with enough fuel yields a sequence sorted in the heap order. -/
theorem drainHeapAux_sorted :
    ∀ (n : Nat) (l : List QEntry), l.length ≤ n →
      List.Sorted entryLe (drainHeapAux n l) := by
  intro n
  induction n with
  | zero => intro l _; simp [drainHeapAux]
  | succ n ih =>
    intro l h
    match l with
    | [] => simp [drainHeapAux]
    | e :: rest =>
      simp only [drainHeapAux]
      have hlen : (popMin e rest).2.length ≤ n := by
        rw [popMin_length]
        simpa using h
      refine List.sorted_cons.mpr ⟨?_, ih _ hlen⟩
      intro b hb
      have hb2 : b ∈ (popMin e rest).2 :=
        ((drainHeapAux_perm n _ hlen).mem_iff).mp hb
      have hb3 : b ∈ e :: rest :=
        (popMin_perm e rest).mem_iff.mp (List.mem_cons_of_mem _ hb2)
      exact popMin_min e rest b hb3

/-- C3 (amended). The main queue dispatches a drained batch as a permutation
of the enqueued entries, sorted primarily by priority value ascending and,
within equal priority, by the lexicographic order of the request-id strings
(the second tuple component), which need not be the insertion order. -/
theorem c3_main_queue_dispatch_order (l : List QEntry) :
    List.Perm (drainHeap l) l ∧ List.Sorted entryLe (drainHeap l) ∧
      List.Sorted (fun a b => a.priorityValue ≤ b.priorityValue) (drainHeap l) := by
  refine ⟨drainHeapAux_perm l.length l le_rfl, drainHeapAux_sorted l.length l le_rfl, ?_⟩
  refine List.Pairwise.imp ?_ (drainHeapAux_sorted l.length l le_rfl)
  intro a b hab
  rcases hab with h1 | ⟨h2, _⟩
  · exact le_of_lt h1
  · exact le_of_eq h2

/-- C3 counterexample. Two NORMAL-priority requests with ids "b" (enqueued
first) and "a" (enqueued second): the heap dispatches "a" first, so the
earlier-enqueued equal-priority request is not dispatched first. -/
theorem c3_counterexample :
    drainHeap [⟨1, "b"⟩, ⟨1, "a"⟩] = [⟨1, "a"⟩, ⟨1, "b"⟩] := by
  have hab : keyLtBool ⟨1, "a"⟩ ⟨1, "b"⟩ = true := by
    simp [keyLtBool]
    decide
  simp [drainHeap, drainHeapAux, popMin, hab]

/-- C1 (amended). Every worker-loop step reaches exactly one terminal status,
but the completion event is set exactly once only on the dispatch paths that
run `handle_request` to a return or an exception; it is set zero times on the
age-skip path and on the per-request deadline path, where the cancellation
bypasses the handler's `except Exception` clause. -/
theorem c1_worker_terminal_and_done_signals (cfg : QueueConfig)
    (now createdAt : ℚ) (outcome : InnerOutcome) :
    (workerStep cfg now createdAt outcome).status.isTerminal = true ∧
      (workerStep cfg now createdAt outcome).doneSignals ≤ 1 ∧
      ((workerStep cfg now createdAt outcome).doneSignals = 0 ↔
        (isRequestTooOld cfg now createdAt = true ∨ outcome = .deadline)) := by
  unfold workerStep
  split
  next h =>
    cases outcome <;>
      simp [h, RequestStatus.isTerminal, handleRequestDoneSignals]
  next h =>
    cases outcome <;>
      simp [h, RequestStatus.isTerminal, handleRequestDoneSignals]

/-- C1 counterexample. A request that is 100 s old against a 30 s maximum age
is skipped with zero completion signals, and a request that hits the
per-request deadline also gets zero completion signals, so the claim that the
done event is set exactly once on every worker path is false. -/
theorem c1_counterexample :
    (workerStep ⟨true, 30⟩ 100 0 .ok).doneSignals = 0 ∧
      (workerStep ⟨true, 30⟩ 0 0 .deadline).doneSignals = 0 := by
  constructor
  · simp [workerStep, isRequestTooOld]
    norm_num
  · simp [workerStep, isRequestTooOld, handleRequestDoneSignals]
    norm_num

/-- C4 (amended). A request older than the configured maximum age at dequeue
time, with skipping enabled, is finished with status FAILED (the status
enumeration has no SKIPPED member), with the age error message recorded, the
`skipped_requests` counter bumped, and the dispatcher never invoked. -/
theorem c4_age_skip_sets_failed (cfg : QueueConfig) (now createdAt : ℚ)
    (outcome : InnerOutcome) (hskip : cfg.skipOldRequests = true)
    (hage : now - createdAt > cfg.requestMaxAgeSec) :
    (workerStep cfg now createdAt outcome).status = .FAILED ∧
      (workerStep cfg now createdAt outcome).errorMessage =
        some (ageSkipMessage cfg.requestMaxAgeSec) ∧
      (workerStep cfg now createdAt outcome).dispatched = false ∧
      (workerStep cfg now createdAt outcome).skippedDelta = 1 := by
  have h : isRequestTooOld cfg now createdAt = true := by
    simp [isRequestTooOld, hskip, hage]
  simp [workerStep, h]

/-- C4 witness. A concrete 100 s old request against the default 30 s
maximum age with skipping enabled. -/
theorem c4_age_skip_sets_failed_witness :
    (⟨true, 30⟩ : QueueConfig).skipOldRequests = true ∧
      ((100 : ℚ) - 0 > (⟨true, 30⟩ : QueueConfig).requestMaxAgeSec) ∧
      (workerStep ⟨true, 30⟩ 100 0 .ok).status = .FAILED :=
  ⟨rfl, by norm_num,
    (c4_age_skip_sets_failed ⟨true, 30⟩ 100 0 .ok rfl (by norm_num)).1⟩

/-- C4 counterexample. The age-skip path sets FAILED, while the claim says a
distinct SKIPPED status (not FAILED) is set; the dispatcher is indeed not
invoked. -/
theorem c4_counterexample :
    (workerStep ⟨true, 30⟩ 100 0 .ok).status = .FAILED ∧
      (workerStep ⟨true, 30⟩ 100 0 .ok).dispatched = false := by
  have h : isRequestTooOld (⟨true, 30⟩ : QueueConfig) 100 0 = true := by
    simp [isRequestTooOld]
    norm_num
  simp [workerStep, h]

/-- C5 (amended). With the default retry count 2 and a driver failing every
attempt, a READ dispatched through the handler exactly as service.py
assembles it ends FAILED after exactly two attempts and bumps the
consecutive-failure counter; but service.py configures no watchdog callback
on the handler, so the callback is invoked zero times and no component issue
— in particular none of kind "bleakclient_failure" — reaches the watchdog;
had one of that kind been reported, `notify_component_issue` would take the
lightweight adapter-reset path. -/
theorem c5_read_all_attempts_fail (driver : Nat → Option (List Nat))
    (prevFailures : Nat) (h : ∀ i, i < BLE_RETRY_COUNT → driver i = none) :
    (serviceReadDispatch driver prevFailures).status = .FAILED ∧
      (serviceReadDispatch driver prevFailures).attemptsMade = 2 ∧
      (serviceReadDispatch driver prevFailures).consecutiveFailures =
        prevFailures + 1 ∧
      (serviceReadDispatch driver prevFailures).watchdogCallbackCalls = 0 ∧
      (serviceReadDispatch driver prevFailures).componentIssuesReported = [] ∧
      notifyComponentIssueRoute "bleakclient_failure" = .lightweightAdapterReset := by
  have h0 : driver 0 = none := h 0 (by norm_num [BLE_RETRY_COUNT])
  have h1 : driver 1 = none := h 1 (by norm_num [BLE_RETRY_COUNT])
  simp [serviceReadDispatch, dispatchReadRequest, handleReadRequestRun,
    firstSuccessFrom, BLE_RETRY_COUNT, h0, h1, componentIssuesFromCalls,
    serviceHandlerNotifyWatchdogConfigured, serviceHandlerScannerArg,
    handlerExclusiveControlDefault, notifyComponentIssueRoute]

/-- C5 witness. The always-failing driver at the default retry count. -/
theorem c5_read_all_attempts_fail_witness :
    (∀ i, i < BLE_RETRY_COUNT →
        (fun _ : Nat => (none : Option (List Nat))) i = none) ∧
      (serviceReadDispatch (fun _ => none) 0).consecutiveFailures = 1 :=
  ⟨fun _ _ => rfl,
    (c5_read_all_attempts_fail (fun _ => none) 0 (fun _ _ => rfl)).2.2.1⟩

/-- C5 counterexample. The claim requires the watchdog to be notified with
kind "bleakclient_failure" after the retries are exhausted; in the assembled
service the handler has no watchdog callback, so zero callback invocations
happen and no component issue of that kind is reported. -/
theorem c5_counterexample :
    (serviceReadDispatch (fun _ => none) 0).status = .FAILED ∧
      (serviceReadDispatch (fun _ => none) 0).watchdogCallbackCalls = 0 ∧
      "bleakclient_failure" ∉
        (serviceReadDispatch (fun _ => none) 0).componentIssuesReported := by
  simp [serviceReadDispatch, dispatchReadRequest, handleReadRequestRun,
    firstSuccessFrom, BLE_RETRY_COUNT, componentIssuesFromCalls,
    serviceHandlerNotifyWatchdogConfigured, serviceHandlerScannerArg,
    handlerExclusiveControlDefault]

/-- C6. The four queue introspection and configuration commands fall through
every branch of `_process_command` to the final else: each is answered with
the unknown-command error instead of being dispatched to the request queue's
operations. -/
theorem c6_queue_commands_fall_to_unknown :
    processCommandRoute "get_queue_status" = .unknown "get_queue_status" ∧
      processCommandRoute "get_queue_stats" = .unknown "get_queue_stats" ∧
      processCommandRoute "get_queue_config" = .unknown "get_queue_config" ∧
      processCommandRoute "update_queue_config" = .unknown "update_queue_config" ∧
      routeErrorResponse (processCommandRoute "get_queue_status") =
        some "Unknown command: get_queue_status" := by
  refine ⟨?_, ?_, ?_, ?_, ?_⟩ <;> rfl

/-- C7. A SCAN_LOOKUP whose address has no valid cache record completes with
status COMPLETED and a response object carrying the not-found-or-expired
error message together with the requested address. -/
theorem c7_scan_lookup_miss_completes (lookup : String → Option ScanResult)
    (mac : String) (f : Option String) (h : lookup mac = none) :
    (handleScanRequest lookup mac f).1 = .COMPLETED ∧
      (handleScanRequest lookup mac f).2 =
        .notFound (scanNotFoundMessage mac) mac ∧
      scanNotFoundMessage mac =
        "Device " ++ mac ++ " not found or scan data expired" := by
  unfold handleScanRequest
  rw [h]
  exact ⟨rfl, rfl, rfl⟩

/-- C7 witness. A lookup with an empty cache at a concrete address. -/
theorem c7_scan_lookup_miss_completes_witness :
    (handleScanRequest (fun _ => none) "AA:BB:CC:DD:EE:FF" none).1 =
        .COMPLETED ∧
      (handleScanRequest (fun _ => none) "AA:BB:CC:DD:EE:FF" none).2 =
        .notFound (scanNotFoundMessage "AA:BB:CC:DD:EE:FF") "AA:BB:CC:DD:EE:FF" :=
  ⟨(c7_scan_lookup_miss_completes (fun _ => none) "AA:BB:CC:DD:EE:FF" none rfl).1,
    (c7_scan_lookup_miss_completes (fun _ => none) "AA:BB:CC:DD:EE:FF" none rfl).2.1⟩

/-- C8 (amended). On a cache hit with a `service_uuid` filter, the response
carries exactly one `service_data` entry keyed by the requested uuid, but its
value is the empty object: `_handle_scan_request` reads
`scan_data.metadata["service_data"]` and a cached record has no `metadata`
attribute, so the default empty dict survives, while the actually observed
service data is attached unfiltered inside `advertisement_data`. -/
theorem c8_service_data_filter_is_empty (lookup : String → Option ScanResult)
    (mac u : String) (sd : ScanResult) (h : lookup mac = some sd) :
    (handleScanRequest lookup mac (some u)).2 = .payload
      { name := sd.name
        rssi := sd.rssi
        address := sd.address
        advertisementData := sd.advertisementData
        manufacturerData := some sd.advertisementData.manufacturerData
        services := none
        serviceData := some [(u, ServiceDataValue.emptyObj)] } := by
  unfold handleScanRequest
  rw [h]
  rfl

/-- C8 witness. A concrete cached record with observed service data hit with
a matching filter. -/
theorem c8_service_data_filter_is_empty_witness :
    (handleScanRequest
        (fun a => if a == "AA" then
          some ⟨"AA", some "S", some (-60), ⟨some "S", [], [("180f", [1, 2])], ["180f"]⟩, 0⟩
          else none)
        "AA" (some "180f")).2 = .payload
      { name := some "S"
        rssi := some (-60)
        address := "AA"
        advertisementData := ⟨some "S", [], [("180f", [1, 2])], ["180f"]⟩
        manufacturerData := some []
        services := none
        serviceData := some [("180f", ServiceDataValue.emptyObj)] } :=
  c8_service_data_filter_is_empty
    (fun a => if a == "AA" then
      some ⟨"AA", some "S", some (-60), ⟨some "S", [], [("180f", [1, 2])], ["180f"]⟩, 0⟩
      else none)
    "AA" "180f"
    ⟨"AA", some "S", some (-60), ⟨some "S", [], [("180f", [1, 2])], ["180f"]⟩, 0⟩
    rfl

/-- C8 counterexample. The cached record advertises bytes [1, 2] for service
"180f", yet the filtered response entry for "180f" holds the empty object,
not those observed bytes, so the claim that the entry's value is the data
actually observed for that service is false. -/
theorem c8_counterexample :
    responseServiceData
        ((handleScanRequest
          (fun a => if a == "AA" then
            some ⟨"AA", some "S", some (-60), ⟨some "S", [], [("180f", [1, 2])], ["180f"]⟩, 0⟩
            else none)
          "AA" (some "180f")).2) =
      some [("180f", ServiceDataValue.emptyObj)] ∧
      ServiceDataValue.emptyObj ≠ ServiceDataValue.raw [1, 2] := by
  constructor
  · rfl
  · intro hx
    cases hx

/-! Helper lemmas for the scan cache. -/

/-- The right-appended element is the newest element of the bounded deque. -/
theorem dequeAppend10_getLast (l : List ScanResult) (r : ScanResult) :
    (dequeAppend10 l r).getLast? = some r := by
  by_cases h : (l ++ [r]).length > 10
  · have hk : (l ++ [r]).length - 10 ≤ l.length := by
      simp only [List.length_append, List.length_singleton] at h ⊢
      omega
    simp only [dequeAppend10, if_pos h]
    rw [List.drop_append_of_le_length hk]
    exact List.getLast?_concat _
  · simp only [dequeAppend10, if_neg h]
    exact List.getLast?_concat _

/-- Updating the value stored under one key commutes with the key search. -/
theorem find_map_guard (a : String) (r : ScanResult)
    (l : List (String × List ScanResult)) :
    (l.map (fun p => if p.1 == a then (p.1, dequeAppend10 p.2 r) else p)).find?
        (fun p => p.1 == a) =
      (l.find? (fun p => p.1 == a)).map (fun p => (p.1, dequeAppend10 p.2 r)) := by
  induction l with
  | nil => rfl
  | cons hd tl ih =>
    obtain ⟨k, v⟩ := hd
    by_cases hcase : (k == a) = true
    · rw [List.map_cons, if_pos hcase]
      rw [List.find?_cons_of_pos (p := fun p : String × List ScanResult => p.1 == a) _ hcase,
        List.find?_cons_of_pos (p := fun p : String × List ScanResult => p.1 == a) _ hcase]
      rfl
    · rw [List.map_cons, if_neg hcase]
      rw [List.find?_cons_of_neg (p := fun p : String × List ScanResult => p.1 == a) _ hcase,
        List.find?_cons_of_neg (p := fun p : String × List ScanResult => p.1 == a) _ hcase]
      exact ih

/-- After `add_result`, the deque stored at the record's address is the old
deque (empty for a new address) with the record appended. -/
theorem cacheLookup_addResult_self (c : ScanCache) (r : ScanResult) :
    cacheLookup (addResult c r) r.address =
      some (dequeAppend10 ((cacheLookup c r.address).getD []) r) := by
  unfold addResult
  cases hl : cacheLookup c r.address with
  | none =>
    simp only [hl]
    unfold cacheLookup
    dsimp only
    rw [List.find?_cons_of_pos _ (by simp)]
    rfl
  | some dq =>
    simp only [hl]
    unfold cacheLookup
    dsimp only
    rw [find_map_guard]
    unfold cacheLookup at hl
    rcases Option.map_eq_some'.mp hl with ⟨pr, hfind, hsnd⟩
    rw [hfind]
    simp [hsnd]

/-- The TTL is unchanged by `add_result`. -/
theorem addResult_ttl (c : ScanCache) (r : ScanResult) :
    (addResult c r).ttlSeconds = c.ttlSeconds := by
  unfold addResult
  split <;> rfl

/-- C9. For every address the cache exposes at most one current record for
lookup: after `add_result` the lookup returns the newly added record exactly
when its age is within the TTL (newer overwriting older for lookup
purposes), and any record returned by `get_latest_result` is the newest
record of its address's deque with age within the TTL; the default TTL is
300 s. -/
theorem c9_cache_latest_within_ttl (c : ScanCache) (r : ScanResult)
    (addr : String) (now : ℚ) (x : ScanResult) :
    (getLatestResult now (addResult c r) r.address =
        if now - r.timestamp ≤ c.ttlSeconds then some r else none) ∧
      (getLatestResult now c addr = some x →
        now - x.timestamp ≤ c.ttlSeconds ∧
          ∃ dq, cacheLookup c addr = some dq ∧ dq.getLast? = some x) ∧
      SCAN_CACHE_TTL_SEC = 300 := by
  refine ⟨?_, ?_, rfl⟩
  · have h1 := cacheLookup_addResult_self c r
    have h2 := dequeAppend10_getLast ((cacheLookup c r.address).getD []) r
    unfold getLatestResult
    rw [h1]
    dsimp only
    rw [h2, addResult_ttl]
    dsimp only
    rcases le_or_lt (now - r.timestamp) c.ttlSeconds with hle | hgt
    · rw [if_neg (not_lt.mpr hle), if_pos hle]
    · rw [if_pos hgt, if_neg (not_le.mpr hgt)]
  · intro hx
    unfold getLatestResult at hx
    cases hl : cacheLookup c addr with
    | none =>
      rw [hl] at hx
      exact absurd hx (by simp)
    | some dq =>
      rw [hl] at hx
      dsimp only at hx
      cases hgl : dq.getLast? with
      | none =>
        rw [hgl] at hx
        exact absurd hx (by simp)
      | some latest =>
        rw [hgl] at hx
        dsimp only at hx
        by_cases httl : now - latest.timestamp > c.ttlSeconds
        · rw [if_pos httl] at hx
          exact absurd hx (by simp)
        · rw [if_neg httl] at hx
          have hxe : latest = x := by
            injection hx
          subst hxe
          exact ⟨not_lt.mp httl, dq, rfl, hgl⟩

/-- C9 witness. A record observed at time 0 and looked up at time 10 against
a 300 s TTL. -/
theorem c9_cache_latest_within_ttl_witness :
    (10 : ℚ) -
        (⟨"AA", none, none, ⟨none, [], [], []⟩, 0⟩ : ScanResult).timestamp ≤
        (addResult ⟨300, []⟩ ⟨"AA", none, none, ⟨none, [], [], []⟩, 0⟩).ttlSeconds ∧
      ∃ dq,
        cacheLookup (addResult ⟨300, []⟩
            ⟨"AA", none, none, ⟨none, [], [], []⟩, 0⟩) "AA" = some dq ∧
          dq.getLast? = some ⟨"AA", none, none, ⟨none, [], [], []⟩, 0⟩ := by
  refine (c9_cache_latest_within_ttl
      (addResult ⟨300, []⟩ ⟨"AA", none, none, ⟨none, [], [], []⟩, 0⟩)
      ⟨"AA", none, none, ⟨none, [], [], []⟩, 0⟩ "AA" 10
      ⟨"AA", none, none, ⟨none, [], [], []⟩, 0⟩).2.1 ?_
  have h1 := (c9_cache_latest_within_ttl ⟨300, []⟩
      ⟨"AA", none, none, ⟨none, [], [], []⟩, 0⟩ "AA" 10
      ⟨"AA", none, none, ⟨none, [], [], []⟩, 0⟩).1
  norm_num at h1
  exact h1

/-- C2. The BLE-operation mutex acquired by the read and write paths is
handler.py's own module-level lock, a different object from scanner.py's
module-level lock, and in the assembled service neither the handler nor the
notification manager receives a scanner instance, so their exclusion
handshakes are skipped outright. -/
theorem c2_lock_identity_and_handshake :
    handlerModuleLockId ≠ scannerModuleLockId ∧
      handlerEngagesExclusionHandshake handlerExclusiveControlDefault
        serviceHandlerScannerArg = false ∧
      handlerEngagesExclusionHandshake handlerExclusiveControlDefault
        serviceNotificationManagerScannerArg = false := by
  refine ⟨?_, rfl, rfl⟩
  decide

/-- C10. Constructing `BLEOrchestratorService` reaches the `IPCServer(...)`
call, whose keyword argument `queue_manager` matches no parameter of
`IPCServer.__init__`, so the constructor raises TypeError; no component
`start()` runs inside `__init__`, and the assembled daemon is never
instantiated successfully. -/
theorem c10_service_init_raises_type_error :
    bleOrchestratorServiceInit = .typeErrorUnexpectedKeyword "queue_manager" ∧
      bleOrchestratorServiceInit ≠ .ok ∧
      componentStartCallsInServiceInit = [] := by
  refine ⟨rfl, ?_, rfl⟩
  decide
